import Mathlib

/-!
Shallow embedding of the Tripster LINE-bot server (`src/server.js`).

The server is a single Express application.  Its logic is embedded here as
pure Lean functions over an `Env` of external collaborators (language
detection, translation, the Google Places text/nearby/details endpoints, the
custom web search and the Gemini completion endpoint).  Remote data calls
performed by the embedded code are recorded in a `Call` trace so that
"no remote call is made" properties can be stated.  JavaScript string
operations (`trim`, `toLowerCase`, `includes`, `startsWith`, `split`,
`replace`, the regexes used by the code) are modelled by the `js*` helpers on
`List Char`, and `Array.prototype.sort` (stable since ES2019) is modelled by
the stable insertion sort `jsSort`.
-/

/-! ### JavaScript string primitives -/

/-- Whitespace for the purposes of `String.prototype.trim` and `\s`. -/
def isJsSpace (c : Char) : Bool :=
  c == ' ' || c == '\t' || c == '\n' || c == '\r' || c == '\x0b' || c == '\x0c'

/-- `trim()` on a character list. -/
def jsTrim (l : List Char) : List Char :=
  ((l.dropWhile isJsSpace).reverse.dropWhile isJsSpace).reverse

/-- `trim()` on strings. -/
def jsTrimStr (s : String) : String :=
  String.mk (jsTrim s.toList)

/-- `toLowerCase()`; ASCII-only lowering, which agrees with JavaScript on the
Thai/ASCII strings this program manipulates. -/
def jsLower (s : String) : String :=
  String.mk (s.toList.map Char.toLower)

/-- Does `hay` contain `needle` as a contiguous subsequence. -/
def hasSubSeq {α : Type} [BEq α] (needle : List α) : List α → Bool
  | [] => needle.isEmpty
  | a :: t => needle.isPrefixOf (a :: t) || hasSubSeq needle t

/-- `hay.includes(needle)`. -/
def jsIncludes (hay needle : String) : Bool :=
  hasSubSeq needle.toList hay.toList

/-- `s.startsWith(p)`. -/
def jsStartsWith (s p : String) : Bool :=
  p.toList.isPrefixOf s.toList

/-- `s.split(sep)` for a one-character separator. -/
def jsSplit (sep : Char) (l : List Char) : List (List Char) :=
  l.foldr
    (fun c acc =>
      match acc with
      | cur :: rest => if c == sep then [] :: cur :: rest else (c :: cur) :: rest
      | [] => [[c]])
    [[]]

/-- `xs.join(sep)`. -/
def jsJoin (sep : String) (xs : List String) : String :=
  match xs with
  | [] => ""
  | x :: r => r.foldl (fun a y => a ++ sep ++ y) x

/-- `s.split(":")[0]`: the text before the first colon (the whole string when
there is no colon). -/
def beforeColon (l : List Char) : List Char :=
  l.takeWhile (fun c => !(c == ':'))

/-- `s.replace(/\*\*/g, "")`: remove every (leftmost-first) occurrence of
`**`. -/
def stripBold : List Char → List Char
  | '*' :: '*' :: rest => stripBold rest
  | c :: rest => c :: stripBold rest
  | [] => []

/-- `s.replace(regexAlternation, "")` for an alternation of literal strings
without the `g` flag: remove the leftmost occurrence of the first alternative
that matches there, scanning alternatives in order at each position. -/
def jsReplaceFirstAux (alts : List String) : List Char → List Char
  | [] => []
  | c :: rest =>
    match alts.find? (fun a => a.toList.isPrefixOf (c :: rest)) with
    | some a => (c :: rest).drop a.toList.length
    | none => c :: jsReplaceFirstAux alts rest

/-- String-level wrapper for `jsReplaceFirstAux`. -/
def jsReplaceFirst (alts : List String) (s : String) : String :=
  String.mk (jsReplaceFirstAux alts s.toList)

/-- Concatenation of a list of lists. -/
def flattenL {α : Type} : List (List α) → List α
  | [] => []
  | l :: ls => l ++ flattenL ls

/-- `[...new Set(xs)]` and Firestore `arrayUnion`: append each new element not
already present, preserving first-occurrence order. -/
def arrayUnion {α : Type} [DecidableEq α] (base news : List α) : List α :=
  news.foldl (fun acc t => if t ∈ acc then acc else acc ++ [t]) base

/-- `[...new Set(xs)]`. -/
def jsUniq {α : Type} [DecidableEq α] (l : List α) : List α :=
  arrayUnion [] l

/-! ### Stable sort (Array.prototype.sort) -/

/-- Insert `x` after every element `y` with `le y x` (stable insertion). -/
def jsSortInsert {α : Type} (le : α → α → Bool) (x : α) : List α → List α
  | [] => [x]
  | y :: ys => if le y x then y :: jsSortInsert le x ys else x :: y :: ys

/-- Stable sort with respect to `le`; models `Array.prototype.sort` with a
comparator `c` via `le a b = (c a b ≤ 0)` when `c` induces a total
preorder. -/
def jsSort {α : Type} (le : α → α → Bool) (l : List α) : List α :=
  l.foldl (fun acc x => jsSortInsert le x acc) []

/-- JavaScript `x || y` on numbers (no NaN): `x` when `x ≠ 0`, else `y`. -/
def jsOr (x y : Rat) : Rat :=
  if x ≠ 0 then x else y

/-- The comparator body shared by the two sorts in `server.js`:
`(b.rating || 0) - (a.rating || 0) || (b.user_ratings_total || 0) - (a.user_ratings_total || 0)`. -/
def jsRatingCmp (ra : Option Rat) (ua : Option Nat) (rb : Option Rat) (ub : Option Nat) : Rat :=
  jsOr (rb.getD 0 - ra.getD 0) ((ub.getD 0 : Rat) - (ua.getD 0 : Rat))

/-- Descending lexicographic order on (rating, rating count); the
specification-side description of the sort key ("rating desc, then
rating-count desc, missing treated as 0"). -/
def keyGe (x y : Rat × Nat) : Prop :=
  y.1 < x.1 ∨ (x.1 = y.1 ∧ y.2 ≤ x.2)

/-! ### The `\d+\.\s*.+` regex tests -/

/-- `str.match(/\d+\.\s*.+/)`: the pattern matches somewhere in `str` exactly
when some digit is immediately followed by a dot which is followed (after
optional whitespace, all of which is then necessarily a line terminator in the
minimal witness) by at least one non-line-terminator character. -/
def hasNumbered : List Char → Bool
  | [] => false
  | c :: rest =>
    (c.isDigit &&
      (match rest with
       | d :: t => d == '.' && t.any (fun x => !(x == '\n' || x == '\r'))
       | [] => false)) || hasNumbered rest

/-- `line.replace(/^\d+\.\s*/, "")`: strip a leading run of digits followed by
a dot and following whitespace; leave the line unchanged when the anchored
pattern does not match. -/
def stripLeadingNum (l : List Char) : List Char :=
  let ds := l.takeWhile Char.isDigit
  match l.drop ds.length with
  | '.' :: rest => if ds.isEmpty then l else rest.dropWhile isJsSpace
  | _ => l

/-- `line.match(/^\d+\.\s+/)`: the keep-rule as the specification words it
(anchored, with at least one whitespace character after the dot). -/
def startsNumberedSpace (l : List Char) : Bool :=
  let ds := l.takeWhile Char.isDigit
  !ds.isEmpty &&
    (match l.drop ds.length with
     | '.' :: c :: _ => isJsSpace c
     | _ => false)

/-! ### Domain data (shapes of the external API payloads) -/

/-- A conversation turn as stored in the `chatHistory` Firestore document
(`{ role, parts: [{ text }] }`, flattened). -/
structure Turn where
  role : String
  text : String
  deriving DecidableEq, Repr

/-- One entry of `response.data.results` from the Places text search.
`geometry` is `some (lat, lng)` exactly when the entry carries a geometry
with coordinates. -/
structure PlaceCandidate where
  place_id : String
  name : String
  geometry : Option (Rat × Rat)
  formatted_address : Option String
  photos : List String
  rating : Option Rat
  user_ratings_total : Option Nat
  deriving DecidableEq, Repr

/-- One entry of `response.data.results` from the nearby search. -/
structure NearbyCandidate where
  name : String
  vicinity : Option String
  geometry : Option (Rat × Rat)
  photos : List String
  rating : Option Rat
  user_ratings_total : Option Nat
  deriving DecidableEq, Repr

/-- `response.data.result` from the Place Details endpoint. -/
structure DetailsResult where
  name : String
  formatted_address : Option String
  photos : List String
  rating : Option Rat
  user_ratings_total : Option Nat
  types : List String
  website : Option String
  url : Option String
  weekday_text : Option (List String)
  deriving DecidableEq, Repr

/-- One item of a Custom Search response. -/
structure SearchItem where
  title : String
  link : String
  snippet : String
  deriving DecidableEq, Repr

/-- The record built by `getLocationFromGooglePlaces`.  `rating = none`
models the JavaScript value `"N/A"` produced by `place.rating || "N/A"`. -/
structure PlaceRecord where
  placeId : String
  name : String
  latitude : Rat
  longitude : Rat
  address : String
  photoReference : Option String
  rating : Option Rat
  userRatingsTotal : Nat
  deriving DecidableEq, Repr

/-- The record built by `getPlaceDetails`. -/
structure PlaceDetails where
  name : String
  address : Option String
  photoReference : Option String
  rating : Option Rat
  userRatingsTotal : Option Nat
  types : List String
  website : Option String
  url : Option String
  openingHours : Option (List String)
  deriving DecidableEq, Repr

/-- The record built by `getHotelsNearPlace`.  `rating = none` models
`"N/A"`; `latitude`/`longitude` are `none` when the JavaScript
`|| null` fallback fires. -/
structure HotelRecord where
  name : String
  address : String
  photoReference : Option String
  latitude : Option Rat
  longitude : Option Rat
  rating : Option Rat
  userRatingsTotal : Nat
  deriving DecidableEq, Repr

/-- A quick-reply action. -/
structure QRAction where
  actionType : String
  label : String
  payload : String
  deriving DecidableEq, Repr

/-- A quick-reply menu. -/
structure QuickReply where
  items : List QRAction
  deriving DecidableEq, Repr

/-- The outbound LINE message union used by this program.  Flex payload
internals (bubbles/carousel contents) are abstracted to the `altText`. -/
inductive ReplyMsg where
  | text (text : String) (quickReply : Option QuickReply)
  | flex (altText : String)
  | location (title : String) (address : String) (latitude longitude : Rat)
  | image (originalContentUrl previewImageUrl : String)
  | imagemap (baseUrl altText : String)
  deriving DecidableEq, Repr

/-- The `userMessage` argument of `getAIResponseWithMedia`: a text string or
a sticker-event object. -/
inductive UserMsg where
  | text (s : String)
  | sticker
  deriving DecidableEq, Repr

/-- Remote data calls recorded by the embedding (translation/detection calls
are not data calls and are not traced). -/
inductive Call where
  | textSearch (query : String) (searchType : String)
  | placeDetails (placeId : String)
  | customSearch (query : String)
  | nearby (lat lng : Rat) (radius : Nat) (searchType : String)
  | completion
  deriving DecidableEq, Repr

/-- Result of `translateText`. -/
structure TransResult where
  text : String
  lang : String
  deriving DecidableEq, Repr

/-- The dynamically-typed input of `translateText`: either a string, or a
non-string value carrying the result of `value?.toString()` (`none` for
`null`/`undefined`). -/
inductive JSVal where
  | str (s : String)
  | nonString (toStr : Option String)
  deriving DecidableEq, Repr

/-- The external collaborators consumed by the server, as pure oracles:
language detection, translation, Places text search, Place Details, Custom
Search, nearby search, the Gemini completion, and today's formatted date. -/
structure Env where
  detect : String → String
  translateStr : String → String → String
  textSearch : String → String → List PlaceCandidate
  details : String → Option DetailsResult
  customSearch : String → List SearchItem
  nearby : Rat → Rat → Nat → String → List NearbyCandidate
  complete : List Turn → String
  today : String

/-! ### Constants from `server.js` -/

/-- The 9-province allow list used by the region gate and the resolver. -/
def northernProvinces : List String :=
  ["เชียงใหม่", "เชียงราย", "ลำปาง", "ลำพูน", "แม่ฮ่องสอน", "น่าน", "พะเยา", "แพร่", "อุตรดิตถ์"]

/-- The persona preamble prepended to every completion prompt. -/
def tonePrompt : String :=
  "\n    คุณคือ Tripster เป็นผู้ชาย, ผู้ช่วยด้านการท่องเที่ยวภาคเหนือของประเทศไทย.\n    ตอบให้สั้น เข้าใจง่าย ใช้ภาษาสุภาพ เหมาะกับทุกเพศทุกวัย และตอบตามข้อเท็จจริง.\n    ใช้ประวัติการสนทนาก่อนหน้าเพื่อปรับคำแนะนำตามความชอบของผู้ใช้.\n    หากไม่มีข้อมูลเพียงพอ ให้แนะนำสถานที่ยอดนิยมในภาคเหนือของประเทศไทยและแจ้งว่าเป็นข้อมูลทั่วไป.\n  "

/-- The out-of-region guidance message. -/
def guidanceText : String :=
  "ขออภัยครับ ผมให้ข้อมูลเฉพาะสถานที่ในภาคเหนือเท่านั้น ลองระบุสถานที่ในภาคเหนือ เช่น เชียงใหม่ หรือ เชียงราย"

/-- The sticker greeting. -/
def stickerGreetingText : String :=
  "สวัสดีครับผม Tripster ดีใจที่คุณทักทายมา ลองเลือกคำสั่งด้านล่างเพื่อเริ่มต้นเลยครับ!"

/-- The short follow-up prompt. -/
def shortFollowUpText : String :=
  "ต้องการดูข้อมูลเพิ่มเติมหรือไม่? ลองเลือกคำสั่งด้านล่างเลยครับ!"

/-- The welcome message pushed for first-time users. -/
def welcomeText : String :=
  "ยินดีต้อนรับสู่ Tripster! ลองเลือกคำสั่งด้านล่างเพื่อเริ่มต้นเลยครับ!"

/-- The dated attribution line plus follow-up questions of the
recommend-places branch. -/
def placesFollowUpText (env : Env) : String :=
  "ข้อมูลนี้มาจาก Google Places API (ข้อมูล ณ วันที่ " ++ env.today ++ ")\n" ++
  "ขอบคุณที่สนใจ! ช่วยบอกเพิ่มเติมหน่อยครับ:\n- งบประมาณต่อวัน (เช่น ต่ำกว่า 2000 บาท)\n- ความชอบ (เช่น ธรรมชาติ, วัฒนธรรม)\n- เดินทางกับใคร (เช่น ครอบครัว, เพื่อน)\n- วิธีการเดินทาง (เช่น รถยนต์, รถไฟ)\nกรุณาพิมพ์คำตอบตามลำดับด้วยคั่นด้วยเครื่องหมาย | หรือเลือกคำสั่งด้านล่างเพื่อดูข้อมูลเพิ่มเติม"

/-- The dated attribution line plus the short follow-up. -/
def datedFollowUpText (env : Env) : String :=
  "ข้อมูลนี้มาจาก Google Places API (ข้อมูล ณ วันที่ " ++ env.today ++ ")\n" ++
  "ต้องการดูข้อมูลเพิ่มเติมหรือไม่? ลองเลือกคำสั่งด้านล่างเลยครับ!"

/-! ### Language Normalizer (`translateText`) -/

/-- `translateText(text, targetLang = null)`.  Non-string input returns
`text?.toString() || "ข้อความไม่ถูกต้อง"` tagged `"th"`; string input is
detected, returned unchanged when no target is requested (or the target is
falsy or equals the source), and otherwise translated and tagged with the
target. -/
def translateText (env : Env) (v : JSVal) (targetLang : Option String) : TransResult :=
  match v with
  | .nonString t =>
    { text :=
        match t with
        | some s => if s == "" then "ข้อความไม่ถูกต้อง" else s
        | none => "ข้อความไม่ถูกต้อง"
      lang := "th" }
  | .str text =>
    let sourceLang := env.detect text
    match targetLang with
    | none => { text := text, lang := sourceLang }
    | some tl =>
      if tl == "" || tl == sourceLang then { text := text, lang := sourceLang }
      else { text := env.translateStr text tl, lang := tl }

/-! ### Conversation store and completion (`getAIResponse`) -/

/-- The read-side trim: `if (chatHistory.length > 10) chatHistory = chatHistory.slice(-10)`. -/
def trimHistory (stored : List Turn) : List Turn :=
  if stored.length > 10 then stored.drop (stored.length - 10) else stored

/-- `getAIResponse` (success path): read the stored history, trim the read
copy to the last 10 turns, send it with the persona preamble and the user
prompt to the completion service, then write back with
`setDoc(..., { messages: arrayUnion(...messages, modelTurn) }, { merge: true })`.
Returns the completion text and the new stored `messages` array. -/
def getAIResponse (env : Env) (stored : List Turn) (userMessage : String) :
    String × List Turn :=
  let chatHistory := trimHistory stored
  let messages := chatHistory ++ [⟨"user", tonePrompt ++ "\n\nคำถามของผู้ใช้: " ++ userMessage⟩]
  let raw := env.complete messages
  let aiResponse := if raw == "" then "ขออภัย ฉันไม่สามารถให้ข้อมูลได้" else raw
  (aiResponse, arrayUnion stored (messages ++ [⟨"model", aiResponse⟩]))

/-! ### Place Resolver (`getLocationFromGooglePlaces`) -/

/-- `place.rating || "N/A"` as an `Option Rat`: a zero or missing rating
becomes `none` (the `"N/A"` string). -/
def jsRatingField (r : Option Rat) : Option Rat :=
  match r with
  | some x => if x = 0 then none else some x
  | none => none

/-- The field-by-field projection of the chosen candidate (`none` when the
candidate has no geometry; in the JavaScript that case throws inside the
`try` and yields `null`). -/
def projectPlace (c : PlaceCandidate) : Option PlaceRecord :=
  c.geometry.map (fun p =>
    { placeId := c.place_id
      name := c.name
      latitude := p.1
      longitude := p.2
      address := c.formatted_address.getD "ไม่มีข้อมูลที่อยู่"
      photoReference := c.photos.head?
      rating := jsRatingField c.rating
      userRatingsTotal := c.user_ratings_total.getD 0 })

/-- `le` for the candidate sort: comparator value `≤ 0`. -/
def placeLe (a b : PlaceCandidate) : Bool :=
  decide (jsRatingCmp a.rating a.user_ratings_total b.rating b.user_ratings_total ≤ 0)

/-- Processing of the text-search results: keep entries with a geometry,
stable-sort by the rating comparator, return the projection of the first. -/
def pickBestCandidate (candidates : List PlaceCandidate) : Option PlaceRecord :=
  if candidates.length > 0 then
    match jsSort placeLe (candidates.filter (fun c => c.geometry.isSome)) with
    | [] => none
    | place :: _ => projectPlace place
  else none

/-- `cleanPlaceName`: `placeName.trim().replace(/\*\*/g, "").split(":")[0]`. -/
def cleanPlaceName (placeName : String) : String :=
  String.mk (beforeColon (stripBold (jsTrim placeName.toList)))

/-- The search query: the cleaned name verbatim when it contains a northern
province, otherwise suffixed with the region disambiguator. -/
def placesSearchQuery (placeName : String) : String :=
  let clean := cleanPlaceName placeName
  let isNorthern := northernProvinces.any (fun p => jsIncludes (jsLower clean) (jsLower p))
  if isNorthern then clean else clean ++ " ภาคเหนือ Thailand"

/-- `getLocationFromGooglePlaces(placeName, type = "tourist_attraction")`. -/
def getLocationFromGooglePlaces (env : Env) (placeName : String)
    (searchType : String := "tourist_attraction") : Option PlaceRecord × List Call :=
  let searchQuery := placesSearchQuery placeName
  (pickBestCandidate (env.textSearch searchQuery searchType),
   [Call.textSearch searchQuery searchType])

/-! ### Place Details (`getPlaceDetails`) -/

/-- `getPlaceDetails(placeId)`. -/
def getPlaceDetails (env : Env) (placeId : String) : Option PlaceDetails × List Call :=
  ((env.details placeId).map (fun place =>
    { name := place.name
      address := place.formatted_address
      photoReference := place.photos.head?
      rating := place.rating
      userRatingsTotal := place.user_ratings_total
      types := place.types
      website := place.website
      url := place.url
      openingHours := place.weekday_text }),
   [Call.placeDetails placeId])

/-! ### Search Enricher (`searchPlaceWithCustomSearch`) -/

/-- `searchPlaceWithCustomSearch(placeName, context = "สถานที่ท่องเที่ยว")`. -/
def searchPlaceWithCustomSearch (env : Env) (placeName : String)
    (context : String := "สถานที่ท่องเที่ยว") : List SearchItem × List Call :=
  let query :=
    if context == "โรงแรม" then placeName ++ " โรงแรม รีวิว ประเทศไทย"
    else placeName ++ " " ++ context ++ " ภาคเหนือ ประเทศไทย"
  let items := env.customSearch query
  let results :=
    if items.length > 0 then
      items.filter (fun item =>
        let text := jsLower (item.title ++ " " ++ item.snippet)
        jsIncludes text (jsLower placeName) &&
          (if context == "โรงแรม" then jsIncludes text "โรงแรม" else true))
    else []
  (results, [Call.customSearch query])

/-! ### Hotel Finder (`getHotelsNearPlace`) -/

/-- `le` for the hotel sort: same comparator as the resolver. -/
def nearbyLe (a b : NearbyCandidate) : Bool :=
  decide (jsRatingCmp a.rating a.user_ratings_total b.rating b.user_ratings_total ≤ 0)

/-- Projection of one nearby-search entry to a `HotelRecord`. -/
def projectHotel (h : NearbyCandidate) : HotelRecord :=
  { name := h.name
    address := h.vicinity.getD "ไม่มีข้อมูลที่อยู่"
    photoReference := h.photos.head?
    latitude := match h.geometry with
      | some p => if p.1 = 0 then none else some p.1
      | none => none
    longitude := match h.geometry with
      | some p => if p.2 = 0 then none else some p.2
      | none => none
    rating := jsRatingField h.rating
    userRatingsTotal := h.user_ratings_total.getD 0 }

/-- The nearby-search part of `getHotelsNearPlace`: lodging within 20000 m of
the anchor, geometry-filtered, rating-sorted, top 3, projected. -/
def nearbyHotels (env : Env) (loc : Rat × Rat) (t : List Call) :
    List HotelRecord × List Call :=
  let results := env.nearby loc.1 loc.2 20000 "lodging"
  let hotels :=
    ((jsSort nearbyLe (results.filter (fun h => h.geometry.isSome))).take 3).map projectHotel
  (hotels, t ++ [Call.nearby loc.1 loc.2 20000 "lodging"])

/-- `getHotelsNearPlace(placeName)`: resolve the destination, else
"Chiang Mai, Thailand", else "Bangkok, Thailand", else the hard-coded
Chiang Mai coordinates; then run the nearby lodging search at the anchor. -/
def getHotelsNearPlace (env : Env) (placeName : String) : List HotelRecord × List Call :=
  match (getLocationFromGooglePlaces env placeName).1 with
  | some loc =>
    nearbyHotels env (loc.latitude, loc.longitude) (getLocationFromGooglePlaces env placeName).2
  | none =>
    match (getLocationFromGooglePlaces env "Chiang Mai, Thailand").1 with
    | some loc =>
      nearbyHotels env (loc.latitude, loc.longitude)
        ((getLocationFromGooglePlaces env placeName).2 ++
          (getLocationFromGooglePlaces env "Chiang Mai, Thailand").2)
    | none =>
      match (getLocationFromGooglePlaces env "Bangkok, Thailand").1 with
      | some loc =>
        nearbyHotels env (loc.latitude, loc.longitude)
          ((getLocationFromGooglePlaces env placeName).2 ++
            (getLocationFromGooglePlaces env "Chiang Mai, Thailand").2 ++
            (getLocationFromGooglePlaces env "Bangkok, Thailand").2)
      | none =>
        nearbyHotels env (18.7883, 98.9857)
          ((getLocationFromGooglePlaces env placeName).2 ++
            (getLocationFromGooglePlaces env "Chiang Mai, Thailand").2 ++
            (getLocationFromGooglePlaces env "Bangkok, Thailand").2)

/-! ### Message Formatter -/

/-- `createQuickReply(lang = "th")`: the fixed 3-action menu. -/
def createQuickReply (lang : String) : QuickReply :=
  { items :=
      [ { actionType := "message"
          label := if lang == "th" then "แนะนำที่เที่ยว" else "Recommend Places"
          payload := "แนะนำที่เที่ยว" },
        { actionType := "message"
          label := if lang == "th" then "แนะนำโรงแรม" else "Recommend Hotels"
          payload := "แนะนำโรงแรม" },
        { actionType := "uri"
          label := if lang == "th" then "สร้างแผนการเดินทาง" else "Create Travel Plan"
          payload := "https://tripster-plans.netlify.app/" } ] }

/-- A text message carrying the quick-reply menu. -/
def qrText (t : String) (lang : String) : ReplyMsg :=
  ReplyMsg.text t (some (createQuickReply lang))

/-- `createPlaceFlexMessage(placeData)` (payload abstracted to the alt
text). -/
def createPlaceFlexMessage (name : String) : ReplyMsg :=
  ReplyMsg.flex ("ข้อมูลสถานที่: " ++ name)

/-- `createRecommendationCarousel(places)`: dedupe the names, resolve each,
keep the successes; a sentinel text when none resolve, otherwise the
carousel. -/
def createRecommendationCarousel (env : Env) (places : List String) :
    ReplyMsg × List Call :=
  let uniquePlaces := jsUniq places
  let resolved := uniquePlaces.map (fun p => getLocationFromGooglePlaces env p)
  let locationData := (resolved.map Prod.fst).filterMap id
  let trace := flattenL (resolved.map Prod.snd)
  if locationData.length = 0 then
    (ReplyMsg.text "ขออภัย ไม่พบสถานที่ท่องเที่ยวที่แนะนำในขณะนี้" none, trace)
  else
    (ReplyMsg.flex "แนะนำที่เที่ยว", trace)

/-- `createHotelRecommendationCarousel(hotels)`. -/
def createHotelRecommendationCarousel (hotels : List HotelRecord) : ReplyMsg :=
  if hotels.length = 0 then ReplyMsg.text "ขออภัย ไม่พบโรงแรมที่แนะนำในขณะนี้" none
  else ReplyMsg.flex "แนะนำโรงแรม"

/-- `carousel.type === "flex"`. -/
def isFlex : ReplyMsg → Bool
  | .flex _ => true
  | _ => false

/-- `searchResults.flat().slice(0, 3).map(r => ...).join("\n")`. -/
def searchLinksJoined (results : List (List SearchItem)) : String :=
  jsJoin "\n" (((flattenL results).take 3).map (fun r => "- " ++ r.title ++ ": " ++ r.link))

/-- `searchResults.slice(0, 3).map(r => ...).join("\n")` (flat list input). -/
def searchLinksFlat (results : List SearchItem) : String :=
  jsJoin "\n" ((results.take 3).map (fun r => "- " ++ r.title ++ ": " ++ r.link))

/-! ### Numbered-list extraction -/

/-- The per-line transformation of the extraction:
`line.replace(/^\d+\.\s*/, "").replace(/\*\*/g, "").split(":")[0].trim()`. -/
def extractLine (line : String) : String :=
  String.mk (jsTrim (beforeColon (stripBold (stripLeadingNum line.toList))))

/-- The numbered-list extraction used in the recommend-places branch and the
fallback branch:
`response.split("\n").filter(line => line.trim().match(/\d+\.\s*.+/)).map(...)`. -/
def extractPlaces (s : String) : List String :=
  ((jsSplit '\n' s.toList).filter (fun l => hasNumbered (jsTrim l))).map
    (fun l => extractLine (String.mk l))

/-! ### Intent Dispatcher (`getAIResponseWithMedia`) -/

/-- The intent guards, in source order. -/
def placesGuard (s : String) : Bool :=
  jsStartsWith s "แนะนำที่เที่ยว" || jsStartsWith s "แนะนำสถานที่" || jsStartsWith s "ขอที่เที่ยว"

/-- Guard of the "info about" branch. -/
def infoGuard (s : String) : Bool :=
  jsStartsWith s "ข้อมูล "

/-- Guard of the hotel branch. -/
def hotelsGuard (s : String) : Bool :=
  jsStartsWith s "แนะนำโรงแรม" || jsIncludes s "ขอที่พัก"

/-- Guard of the weather branch. -/
def weatherGuard (s : String) : Bool :=
  jsStartsWith s "สภาพอากาศ " || jsStartsWith s "สภาพอากาศปัจจุบัน"

/-- Guard of the map branch. -/
def mapGuard (s : String) : Bool :=
  jsStartsWith s "แผนที่"

/-- Guard of the contact branch (exact equality). -/
def contactGuard (s : String) : Bool :=
  s == "ติดต่อหน่วยงานที่เกี่ยวข้อง"

/-- The preference keywords scanned from the inbound text, in push order. -/
def preferencesOf (s : String) : List String :=
  (if jsIncludes s "ธรรมชาติ" then ["natural_feature"] else []) ++
  (if jsIncludes s "วัฒนธรรม" then ["museum|church|historical"] else []) ++
  (if jsIncludes s "ผจญภัย" then ["park|amusement_park"] else [])

/-- Destination extraction of the recommend-places branch:
`userMessage.replace(/แนะนำที่เที่ยว|แนะนำสถานที่|ขอที่เที่ยว/, "").trim() || "ภาคเหนือ"`. -/
def placesDestination (s : String) : String :=
  let d := jsTrimStr (jsReplaceFirst ["แนะนำที่เที่ยว", "แนะนำสถานที่", "ขอที่เที่ยว"] s)
  if d == "" then "ภาคเหนือ" else d

/-- Destination extraction of the hotel branch. -/
def hotelsDestination (s : String) : String :=
  let d := jsTrimStr (jsReplaceFirst ["แนะนำโรงแรม", "ขอที่พัก"] s)
  if d == "" then "ภาคเหนือ" else d

/-- Place-name extraction of the weather branch
(`replace(/สภาพอากาศ(ปัจจุบัน)?/, "")`, greedy optional group). -/
def weatherPlaceName (s : String) : String :=
  let d := jsTrimStr (jsReplaceFirst ["สภาพอากาศปัจจุบัน", "สภาพอากาศ"] s)
  if d == "" then "กรุงเทพมหานคร" else d

/-- The region gate: the destination contains (case-insensitively) one of the
9 northern provinces or the region name itself. -/
def isNorthernDest (destination : String) : Bool :=
  northernProvinces.any (fun p => jsIncludes (jsLower destination) (jsLower p)) ||
    jsIncludes (jsLower destination) "ภาคเหนือ"

/-- The sticker branch: translate the greeting to the detected language
(`"th"`, since detection is skipped for non-string input) and return it with
the quick-reply menu. -/
def stickerBranch (env : Env) : List ReplyMsg × List Call :=
  let detectedLang := "th"
  let greeting := translateText env (.str stickerGreetingText) (some detectedLang)
  ([ReplyMsg.text (if greeting.text == "" then stickerGreetingText else greeting.text)
      (some (createQuickReply detectedLang))],
   [])

/-- The recommend-places branch. -/
def recommendPlacesBranch (env : Env) (stored : List Turn) (detectedLang : String)
    (preferences : List String) (s : String) : List ReplyMsg × List Call :=
  let destination := placesDestination s
  if !(isNorthernDest destination) then
    let errorMsg := translateText env (.str guidanceText) (some detectedLang)
    ([qrText errorMsg.text detectedLang], [])
  else
    let prompt := "แนะนำสถานที่ท่องเที่ยวยอดนิยม 5 แห่งใน " ++ destination ++ " ภาคเหนือของประเทศไทย" ++
      (if preferences.length > 0 then " ที่เหมาะกับ " ++ jsJoin ", " preferences else "")
    let initialResponse := (getAIResponse env stored prompt).1
    let places := extractPlaces initialResponse
    let resolved := places.map (fun p => getLocationFromGooglePlaces env p)
    let validPlaces := ((resolved.map Prod.fst).filterMap id).map (fun d => d.name)
    let searched := validPlaces.map (fun p => searchPlaceWithCustomSearch env p "สถานที่ท่องเที่ยว")
    let searchResults := searched.map Prod.fst
    let hotelsR := getHotelsNearPlace env destination
    let carouselR := createRecommendationCarousel env (validPlaces.take 5)
    let hotelCarousel := createHotelRecommendationCarousel (hotelsR.1.take 5)
    let followUpQuestions := translateText env (.str (placesFollowUpText env)) (some detectedLang)
    let messages :=
      [if isFlex carouselR.1 then carouselR.1
       else ReplyMsg.text "ขออภัย ไม่พบสถานที่ท่องเที่ยวที่แนะนำในขณะนี้" none] ++
      (if searchResults.length > 0 then
        [ReplyMsg.text (translateText env
            (.str ("ข้อมูลเพิ่มเติมเกี่ยวกับสถานที่:\n" ++ searchLinksJoined searchResults))
            (some detectedLang)).text none]
       else []) ++
      [if isFlex hotelCarousel then hotelCarousel
       else ReplyMsg.text "ขออภัย ไม่พบโรงแรมที่แนะนำในขณะนี้" none] ++
      [qrText followUpQuestions.text detectedLang]
    (messages,
     [Call.completion] ++ flattenL (resolved.map Prod.snd) ++
       flattenL (searched.map Prod.snd) ++ hotelsR.2 ++ carouselR.2)

/-- The "info about a place" branch. -/
def infoBranch (env : Env) (detectedLang : String) (s : String) :
    List ReplyMsg × List Call :=
  let placeName := jsTrimStr (jsReplaceFirst ["ข้อมูล "] s)
  let locR := getLocationFromGooglePlaces env placeName
  match locR.1 with
  | some locationData =>
    let detailsR := getPlaceDetails env locationData.placeId
    let mergedName := match detailsR.1 with
      | some d => d.name
      | none => locationData.name
    let flexMessage := createPlaceFlexMessage mergedName
    let searchR := searchPlaceWithCustomSearch env placeName "สถานที่ท่องเที่ยว"
    let messages :=
      [flexMessage] ++
      (if searchR.1.length > 0 then
        [ReplyMsg.text (translateText env
            (.str ("ข้อมูลเพิ่มเติมเกี่ยวกับ " ++ placeName ++ ":\n" ++ searchLinksFlat searchR.1))
            (some detectedLang)).text none]
       else []) ++
      [qrText (translateText env (.str (datedFollowUpText env)) (some detectedLang)).text
        detectedLang]
    (messages, locR.2 ++ detailsR.2 ++ searchR.2)
  | none =>
    ([qrText (translateText env (.str ("ไม่พบข้อมูลของ \"" ++ placeName ++ "\""))
        (some detectedLang)).text detectedLang],
     locR.2)

/-- The recommend-hotels branch. -/
def hotelsBranch (env : Env) (detectedLang : String) (s : String) :
    List ReplyMsg × List Call :=
  let placeName := hotelsDestination s
  if !(isNorthernDest placeName) then
    let errorMsg := translateText env (.str guidanceText) (some detectedLang)
    ([qrText errorMsg.text detectedLang], [])
  else
    let hotelsR := getHotelsNearPlace env placeName
    let carousel := createHotelRecommendationCarousel hotelsR.1
    let searched := hotelsR.1.map (fun h => searchPlaceWithCustomSearch env h.name "โรงแรม")
    let searchResults := searched.map Prod.fst
    let messages :=
      [if isFlex carousel then carousel
       else ReplyMsg.text "ขออภัย ไม่พบโรงแรมที่แนะนำในขณะนี้" none] ++
      (if searchResults.length > 0 then
        [ReplyMsg.text (translateText env
            (.str ("ข้อมูลเพิ่มเติมเกี่ยวกับโรงแรม:\n" ++ searchLinksJoined searchResults))
            (some detectedLang)).text none]
       else []) ++
      [qrText (translateText env (.str (datedFollowUpText env)) (some detectedLang)).text
        detectedLang]
    (messages, hotelsR.2 ++ flattenL (searched.map Prod.snd))

/-- The weather branch (returns a place card, no weather data). -/
def weatherBranch (env : Env) (detectedLang : String) (s : String) :
    List ReplyMsg × List Call :=
  let placeName := weatherPlaceName s
  let locR := getLocationFromGooglePlaces env placeName
  match locR.1 with
  | some locationData =>
    ([createPlaceFlexMessage locationData.name,
      qrText (translateText env (.str shortFollowUpText) (some detectedLang)).text detectedLang],
     locR.2)
  | none =>
    ([qrText (translateText env (.str ("ไม่พบข้อมูลสภาพอากาศของ \"" ++ placeName ++ "\""))
        (some detectedLang)).text detectedLang],
     locR.2)

/-- The map branch. -/
def mapBranch (env : Env) (detectedLang : String) (s : String) :
    List ReplyMsg × List Call :=
  let placeName := jsTrimStr (jsReplaceFirst ["แผนที่"] s)
  let locR := getLocationFromGooglePlaces env placeName
  match locR.1 with
  | some locationData =>
    if locationData.latitude ≠ 0 ∧ locationData.longitude ≠ 0 then
      ([ReplyMsg.location placeName locationData.address locationData.latitude
          locationData.longitude,
        qrText (translateText env (.str shortFollowUpText) (some detectedLang)).text detectedLang],
       locR.2)
    else
      ([qrText (translateText env
          (.str ("ไม่พบข้อมูลแผนที่ของ \"" ++ placeName ++ "\" กรุณาตรวจสอบชื่อสถานที่"))
          (some detectedLang)).text detectedLang],
       locR.2)
  | none =>
    ([qrText (translateText env
        (.str ("ไม่พบข้อมูลแผนที่ของ \"" ++ placeName ++ "\" กรุณาตรวจสอบชื่อสถานที่"))
        (some detectedLang)).text detectedLang],
     locR.2)

/-- The contact branch: two static image maps plus the follow-up. -/
def contactBranch (env : Env) (detectedLang : String) : List ReplyMsg × List Call :=
  ([ReplyMsg.imagemap "https://tripster-plans.netlify.app/images/contact_imagemap1.png?w=auto"
      "ติดต่อหน่วยงานที่เกี่ยวข้อง (กลุ่ม 1)",
    ReplyMsg.imagemap "https://tripster-plans.netlify.app/images/contact_imagemap2.png?w=auto"
      "ติดต่อหน่วยงานที่เกี่ยวข้อง (กลุ่ม 2)",
    qrText (translateText env (.str shortFollowUpText) (some detectedLang)).text detectedLang],
   [])

/-- The fallback branch: free-form completion, then the numbered-list /
image-marker / plain-text triage. -/
def fallbackBranch (env : Env) (stored : List Turn) (detectedLang : String) (s : String) :
    List ReplyMsg × List Call :=
  let aiResponse := (getAIResponse env stored s).1
  if hasNumbered aiResponse.toList then
    let places := extractPlaces aiResponse
    let resolved := places.map (fun p => getLocationFromGooglePlaces env p)
    let validPlaces := ((resolved.map Prod.fst).filterMap id).map (fun d => d.name)
    let searched := validPlaces.map (fun p => searchPlaceWithCustomSearch env p "สถานที่ท่องเที่ยว")
    let searchResults := searched.map Prod.fst
    let carouselR := createRecommendationCarousel env validPlaces
    let messages :=
      [if isFlex carouselR.1 then carouselR.1
       else ReplyMsg.text "ขออภัย ไม่พบสถานที่ท่องเที่ยวที่แนะนำในขณะนี้" none] ++
      (if searchResults.length > 0 then
        [ReplyMsg.text (translateText env
            (.str ("ข้อมูลเพิ่มเติมเกี่ยวกับสถานที่:\n" ++ searchLinksJoined searchResults))
            (some detectedLang)).text none]
       else []) ++
      [qrText (translateText env (.str (datedFollowUpText env)) (some detectedLang)).text
        detectedLang]
    (messages,
     [Call.completion] ++ flattenL (resolved.map Prod.snd) ++
       flattenL (searched.map Prod.snd) ++ carouselR.2)
  else if jsIncludes aiResponse "แสดงรูปภาพ" then
    ([ReplyMsg.image "https://example.com/travel_image.jpg" "https://example.com/travel_image.jpg",
      qrText (translateText env (.str shortFollowUpText) (some detectedLang)).text detectedLang],
     [Call.completion])
  else
    ([qrText (translateText env (.str aiResponse) (some detectedLang)).text detectedLang],
     [Call.completion])

/-- `getAIResponseWithMedia(userId, userMessage, replyToken)`: detect the
language (string input only), then run the first matching intent branch. -/
def getAIResponseWithMedia (env : Env) (stored : List Turn) (userMessage : UserMsg) :
    List ReplyMsg × List Call :=
  match userMessage with
  | .sticker => stickerBranch env
  | .text s =>
    let detectedLang := (translateText env (.str s) none).lang
    let preferences := preferencesOf s
    if placesGuard s then recommendPlacesBranch env stored detectedLang preferences s
    else if infoGuard s then infoBranch env detectedLang s
    else if hotelsGuard s then hotelsBranch env detectedLang s
    else if weatherGuard s then weatherBranch env detectedLang s
    else if mapGuard s then mapBranch env detectedLang s
    else if contactGuard s then contactBranch env detectedLang
    else fallbackBranch env stored detectedLang s

/-! ### Webhook text-event handling (`app.post("/webhook")`, text case) -/

/-- Does the message object carry a `quickReply` field. -/
def hasQuickReplyField : ReplyMsg → Bool
  | .text _ (some _) => true
  | _ => false

/-- `!lastMessage.quickReply` on a non-empty list (false on an empty one). -/
def lastLacksQuickReply (messages : List ReplyMsg) : Bool :=
  match messages.getLast? with
  | some m => !hasQuickReplyField m
  | none => false

/-- The first-message welcome block of the webhook handler: when this is the
user's first message and the reply list is non-empty with no quick reply on
its last message, push a localized welcome message carrying the menu. -/
def augmentFirstMessage (env : Env) (isFirstMessage : Bool) (userMessage : String)
    (messages : List ReplyMsg) : List ReplyMsg :=
  if isFirstMessage && messages.length > 0 then
    if lastLacksQuickReply messages then
      let detectedLang := (translateText env (.str userMessage) none).lang
      let welcomeMessage := translateText env (.str welcomeText) (some detectedLang)
      messages ++ [qrText welcomeMessage.text detectedLang]
    else messages
  else messages

/-- The webhook text-message path: read the user's history document (`none`
when it does not exist), dispatch, run the first-message welcome block, and
send the result when non-empty. -/
def handleTextEvent (env : Env) (storedDoc : Option (List Turn)) (userMessage : String) :
    Option (List ReplyMsg) :=
  let isFirstMessage := storedDoc.isNone
  let messages := (getAIResponseWithMedia env (storedDoc.getD []) (.text userMessage)).1
  let finalMessages := augmentFirstMessage env isFirstMessage userMessage messages
  if finalMessages.length > 0 then some finalMessages else none

/-! ### Specification-side definitions -/

/-- The sort key as the specification words it: rating and rating count with
missing values treated as 0. -/
def ratingKey (c : PlaceCandidate) : Rat × Nat :=
  (c.rating.getD 0, c.user_ratings_total.getD 0)

/-- The hotel sort key. -/
def nearbyKey (c : NearbyCandidate) : Rat × Nat :=
  (c.rating.getD 0, c.user_ratings_total.getD 0)

/-- Descending rating order on projected hotel records. -/
def hotelRecordGe (a b : HotelRecord) : Prop :=
  keyGe (a.rating.getD 0, a.userRatingsTotal) (b.rating.getD 0, b.userRatingsTotal)

/-- Modelled from the spec: the anchor-location fallback chain of the Hotel
Finder, written as a chain of alternatives (destination, default city A,
default city B, hard-coded coordinates). -/
def hotelAnchor (env : Env) (placeName : String) : Rat × Rat :=
  match (getLocationFromGooglePlaces env placeName).1 with
  | some r => (r.latitude, r.longitude)
  | none =>
    match (getLocationFromGooglePlaces env "Chiang Mai, Thailand").1 with
    | some r => (r.latitude, r.longitude)
    | none =>
      match (getLocationFromGooglePlaces env "Bangkok, Thailand").1 with
      | some r => (r.latitude, r.longitude)
      | none => (18.7883, 98.9857)

/-- Does a digit, a dot and then at least one further non-line-terminator
character stand at the head of `t`. -/
def numberedAt : List Char → Bool
  | c :: d :: rest => c.isDigit && (d == '.') && rest.any (fun x => !(x == '\n' || x == '\r'))
  | _ => false

/-- Does some suffix start with the digit-dot-character pattern. -/
def numberedAnywhere (l : List Char) : Bool :=
  l.tails.any numberedAt

/-- The keep-rule of the extraction, worded as in the amended claim: the
trimmed line contains, anywhere, one or more digits followed by a dot
followed by at least one further non-line-terminator character. -/
def specKeepsLine (line : String) : Bool :=
  numberedAnywhere (jsTrim line.toList)

/-- The extraction as the amended claim words it. -/
def extractPlacesSpecA (s : String) : List String :=
  ((jsSplit '\n' s.toList).filter (fun l => specKeepsLine (String.mk l))).map
    (fun l => extractLine (String.mk l))

/-- The extraction as the original claim words it: keep exactly the lines
matching `^\d+\.\s+`, then apply the same per-line transformation. -/
def extractPlacesClaimed (s : String) : List String :=
  ((jsSplit '\n' s.toList).filter (fun l => startsNumberedSpace l)).map
    (fun l => extractLine (String.mk l))

/-- A simple concrete environment used by the witnesses: everything empty,
detection always `"th"`. -/
def envDefault : Env :=
  { detect := fun _ => "th"
    translateStr := fun t _ => t
    textSearch := fun _ _ => []
    details := fun _ => none
    customSearch := fun _ => []
    nearby := fun _ _ _ _ => []
    complete := fun _ => "สวัสดีครับ"
    today := "1 มกราคม 2569" }

/-- An environment whose completion answers depend on the history length, so
that successive model turns are pairwise distinct. -/
def c1Env : Env :=
  { envDefault with complete := fun ms => "ตอบ " ++ toString ms.length }

/-- The stored history after `n` successive `getAIResponse` appends with
distinct user prompts, starting from an empty document. -/
def c1Store (n : Nat) : List Turn :=
  (List.range n).foldl
    (fun st i => (getAIResponse c1Env st ("คำถาม " ++ toString i)).2) []

/-- The reply list ends with a text message carrying the quick-reply menu. -/
def endsWithMenu (ms : List ReplyMsg) : Prop :=
  ∃ t lang, ms.getLast? = some (qrText t lang)

/-- A concrete text-search result set: one entry without geometry, one with. -/
def c3ResultA : List PlaceCandidate :=
  [ { place_id := "p1", name := "Wat A", geometry := none, formatted_address := none,
      photos := [], rating := some 5, user_ratings_total := some 2 },
    { place_id := "p2", name := "Wat B", geometry := some (10, 20),
      formatted_address := some "addr", photos := ["ph"], rating := some 4,
      user_ratings_total := some 7 } ]

/-- A concrete text-search result set with no geometry-bearing entry. -/
def c3ResultB : List PlaceCandidate :=
  [ { place_id := "p1", name := "Wat A", geometry := none, formatted_address := none,
      photos := [], rating := some 5, user_ratings_total := some 2 } ]

/-! ### General lemmas -/

theorem keyGe_total (x y : Rat × Nat) : keyGe x y ∨ keyGe y x := by
  unfold keyGe
  rcases lt_trichotomy x.1 y.1 with h | h | h
  · exact Or.inr (Or.inl h)
  · rcases Nat.le_total y.2 x.2 with h2 | h2
    · exact Or.inl (Or.inr ⟨h, h2⟩)
    · exact Or.inr (Or.inr ⟨h.symm, h2⟩)
  · exact Or.inl (Or.inl h)

theorem keyGe_trans (x y z : Rat × Nat) (h1 : keyGe x y) (h2 : keyGe y z) : keyGe x z := by
  unfold keyGe at *
  rcases h1 with h1 | ⟨e1, l1⟩
  · rcases h2 with h2 | ⟨e2, l2⟩
    · exact Or.inl (lt_trans h2 h1)
    · exact Or.inl (e2 ▸ h1)
  · rcases h2 with h2 | ⟨e2, l2⟩
    · exact Or.inl (e1 ▸ h2)
    · exact Or.inr ⟨e1.trans e2, le_trans l2 l1⟩

theorem jsRatingCmp_le_iff (ra rb : Option Rat) (ua ub : Option Nat) :
    jsRatingCmp ra ua rb ub ≤ 0 ↔ keyGe (ra.getD 0, ua.getD 0) (rb.getD 0, ub.getD 0) := by
  unfold jsRatingCmp jsOr keyGe
  dsimp only
  by_cases h : (rb.getD 0 : Rat) - ra.getD 0 = 0
  · have hxy : rb.getD 0 = ra.getD 0 := sub_eq_zero.mp h
    rw [if_neg (by simp [h]), hxy]
    simp only [lt_self_iff_false, false_or, eq_self_iff_true, true_and, sub_nonpos]
    exact Nat.cast_le
  · rw [if_pos h, sub_nonpos]
    constructor
    · intro hc
      exact Or.inl (lt_of_le_of_ne hc (fun e => h (by rw [e, sub_self])))
    · rintro (hc | ⟨e, _⟩)
      · exact le_of_lt hc
      · exact le_of_eq e.symm

theorem placeLe_iff (a b : PlaceCandidate) :
    placeLe a b = true ↔ keyGe (ratingKey a) (ratingKey b) := by
  unfold placeLe ratingKey
  rw [decide_eq_true_iff]
  exact jsRatingCmp_le_iff a.rating b.rating a.user_ratings_total b.user_ratings_total

theorem nearbyLe_iff (a b : NearbyCandidate) :
    nearbyLe a b = true ↔ keyGe (nearbyKey a) (nearbyKey b) := by
  unfold nearbyLe nearbyKey
  rw [decide_eq_true_iff]
  exact jsRatingCmp_le_iff a.rating b.rating a.user_ratings_total b.user_ratings_total

theorem placeLe_total (a b : PlaceCandidate) : placeLe a b = true ∨ placeLe b a = true := by
  rw [placeLe_iff, placeLe_iff]; exact keyGe_total _ _

theorem placeLe_trans (a b c : PlaceCandidate) (h1 : placeLe a b = true)
    (h2 : placeLe b c = true) : placeLe a c = true := by
  rw [placeLe_iff] at *
  exact keyGe_trans _ _ _ h1 h2

theorem nearbyLe_total (a b : NearbyCandidate) : nearbyLe a b = true ∨ nearbyLe b a = true := by
  rw [nearbyLe_iff, nearbyLe_iff]; exact keyGe_total _ _

theorem nearbyLe_trans (a b c : NearbyCandidate) (h1 : nearbyLe a b = true)
    (h2 : nearbyLe b c = true) : nearbyLe a c = true := by
  rw [nearbyLe_iff] at *
  exact keyGe_trans _ _ _ h1 h2

theorem mem_jsSortInsert {α : Type} (le : α → α → Bool) (x a : α) (l : List α) :
    a ∈ jsSortInsert le x l ↔ a = x ∨ a ∈ l := by
  induction l with
  | nil => simp [jsSortInsert]
  | cons y ys ih =>
    unfold jsSortInsert
    split
    · rw [List.mem_cons, List.mem_cons, ih]
      tauto
    · simp only [List.mem_cons]

theorem mem_foldl_jsSortInsert {α : Type} (le : α → α → Bool) (a : α) (l : List α) :
    ∀ acc, (a ∈ l.foldl (fun acc x => jsSortInsert le x acc) acc) ↔ a ∈ acc ∨ a ∈ l := by
  induction l with
  | nil => intro acc; simp
  | cons x t ih =>
    intro acc
    simp only [List.foldl_cons]
    rw [ih, mem_jsSortInsert]
    simp only [List.mem_cons]
    tauto

theorem mem_jsSort {α : Type} (le : α → α → Bool) (a : α) (l : List α) :
    a ∈ jsSort le l ↔ a ∈ l := by
  unfold jsSort
  rw [mem_foldl_jsSortInsert]
  simp

theorem pairwise_jsSortInsert {α : Type} (le : α → α → Bool)
    (total : ∀ a b, le a b = true ∨ le b a = true)
    (htrans : ∀ a b c, le a b = true → le b c = true → le a c = true)
    (x : α) (l : List α) (h : l.Pairwise (fun a b => le a b = true)) :
    (jsSortInsert le x l).Pairwise (fun a b => le a b = true) := by
  induction l with
  | nil => simp [jsSortInsert]
  | cons y ys ih =>
    rcases List.pairwise_cons.mp h with ⟨hy, hys⟩
    unfold jsSortInsert
    split
    · next hle =>
      refine List.pairwise_cons.mpr ⟨?_, ih hys⟩
      intro b hb
      rcases (mem_jsSortInsert le x b ys).mp hb with rfl | hb2
      · exact hle
      · exact hy b hb2
    · next hle =>
      have hxy : le x y = true := by
        rcases total x y with h1 | h1
        · exact h1
        · exact absurd h1 hle
      refine List.pairwise_cons.mpr ⟨?_, h⟩
      intro b hb
      rcases List.mem_cons.mp hb with rfl | hb2
      · exact hxy
      · exact htrans x y b hxy (hy b hb2)

theorem pairwise_foldl_jsSortInsert {α : Type} (le : α → α → Bool)
    (total : ∀ a b, le a b = true ∨ le b a = true)
    (htrans : ∀ a b c, le a b = true → le b c = true → le a c = true)
    (l : List α) :
    ∀ acc, acc.Pairwise (fun a b => le a b = true) →
      (l.foldl (fun acc x => jsSortInsert le x acc) acc).Pairwise (fun a b => le a b = true) := by
  induction l with
  | nil => intro acc h; simpa using h
  | cons x t ih =>
    intro acc h
    simp only [List.foldl_cons]
    exact ih _ (pairwise_jsSortInsert le total htrans x acc h)

theorem pairwise_jsSort {α : Type} (le : α → α → Bool)
    (total : ∀ a b, le a b = true ∨ le b a = true)
    (htrans : ∀ a b c, le a b = true → le b c = true → le a c = true)
    (l : List α) :
    (jsSort le l).Pairwise (fun a b => le a b = true) :=
  pairwise_foldl_jsSortInsert le total htrans l [] List.Pairwise.nil

theorem jsRatingField_getD (r : Option Rat) : (jsRatingField r).getD 0 = r.getD 0 := by
  unfold jsRatingField
  cases r with
  | none => rfl
  | some x =>
    by_cases hx : x = 0
    · simp [hx]
    · simp [hx]

theorem arrayUnion_cons {α : Type} [DecidableEq α] (acc : List α) (t : α) (news : List α) :
    arrayUnion acc (t :: news) = arrayUnion (if t ∈ acc then acc else acc ++ [t]) news := rfl

theorem length_le_arrayUnion {α : Type} [DecidableEq α] (news : List α) :
    ∀ acc : List α, acc.length ≤ (arrayUnion acc news).length := by
  induction news with
  | nil => intro acc; simp [arrayUnion]
  | cons t news ih =>
    intro acc
    rw [arrayUnion_cons]
    by_cases h : t ∈ acc
    · rw [if_pos h]; exact ih acc
    · rw [if_neg h]
      calc acc.length ≤ (acc ++ [t]).length := by simp
        _ ≤ (arrayUnion (acc ++ [t]) news).length := ih (acc ++ [t])

theorem arrayUnion_length_le {α : Type} [DecidableEq α] (news : List α) :
    ∀ acc base : List α, (∀ b ∈ base, b ∈ acc) →
      (arrayUnion acc news).length ≤
        acc.length + (news.filter (fun t => decide (t ∉ base))).length := by
  induction news with
  | nil => intro acc base _; simp [arrayUnion]
  | cons t news ih =>
    intro acc base hb
    rw [arrayUnion_cons]
    by_cases h : t ∈ acc
    · rw [if_pos h]
      calc (arrayUnion acc news).length
          ≤ acc.length + (news.filter (fun t => decide (t ∉ base))).length := ih acc base hb
        _ ≤ acc.length + ((t :: news).filter (fun t => decide (t ∉ base))).length := by
            rw [List.filter_cons]
            split
            · simp
            · simp
    · rw [if_neg h]
      have htb : t ∉ base := fun hmem => h (hb t hmem)
      have hb2 : ∀ b ∈ base, b ∈ acc ++ [t] :=
        fun b hbb => List.mem_append.mpr (Or.inl (hb b hbb))
      calc (arrayUnion (acc ++ [t]) news).length
          ≤ (acc ++ [t]).length + (news.filter (fun t => decide (t ∉ base))).length :=
            ih (acc ++ [t]) base hb2
        _ = acc.length + 1 + (news.filter (fun t => decide (t ∉ base))).length := by simp
        _ = acc.length + ((t :: news).filter (fun t => decide (t ∉ base))).length := by
            rw [List.filter_cons, if_pos (by simpa using htb)]
            simp
            omega

theorem trimHistory_length (stored : List Turn) : (trimHistory stored).length ≤ 10 := by
  unfold trimHistory
  split
  · simp only [List.length_drop]
    omega
  · omega

theorem trimHistory_mem (stored : List Turn) (a : Turn) (h : a ∈ trimHistory stored) :
    a ∈ stored := by
  unfold trimHistory at h
  split at h
  · exact (List.drop_sublist _ _).subset h
  · exact h

theorem mem_of_head?_eq {α : Type} {l : List α} {a : α} (h : l.head? = some a) : a ∈ l := by
  cases l with
  | nil => cases h
  | cons x t =>
    simp only [List.head?_cons, Option.some.injEq] at h
    rw [← h]
    exact List.mem_cons_self x t

theorem hasNumbered_eq (l : List Char) : hasNumbered l = numberedAnywhere l := by
  induction l with
  | nil => rfl
  | cons c rest ih =>
    unfold numberedAnywhere at ih ⊢
    rw [List.tails_cons, List.any_cons, ← ih]
    cases rest with
    | nil => simp [hasNumbered, numberedAt]
    | cons d t => simp [hasNumbered, numberedAt, Bool.and_assoc]

theorem endsWithMenu_ne_nil {ms : List ReplyMsg} (h : endsWithMenu ms) : ms ≠ [] := by
  obtain ⟨t, lang, hl⟩ := h
  intro he
  rw [he] at hl
  cases hl

theorem endsWithMenu_concat (ms : List ReplyMsg) (t lang : String) :
    endsWithMenu (ms ++ [qrText t lang]) :=
  ⟨t, lang, List.getLast?_concat ms⟩

theorem endsWithMenu_append (ms ms' : List ReplyMsg) (h : endsWithMenu ms') :
    endsWithMenu (ms ++ ms') := by
  obtain ⟨t, lang, hl⟩ := h
  exact ⟨t, lang, by rw [List.getLast?_append, hl]; rfl⟩

theorem endsWithMenu_single (t lang : String) : endsWithMenu [qrText t lang] :=
  ⟨t, lang, rfl⟩

theorem endsWithMenu_two (m : ReplyMsg) (t lang : String) :
    endsWithMenu [m, qrText t lang] :=
  ⟨t, lang, rfl⟩

theorem endsWithMenu_three (m1 m2 : ReplyMsg) (t lang : String) :
    endsWithMenu [m1, m2, qrText t lang] :=
  ⟨t, lang, rfl⟩

theorem createQuickReply_three (lang : String) : (createQuickReply lang).items.length = 3 := rfl

theorem pickBestCandidate_eq (results : List PlaceCandidate) :
    pickBestCandidate results =
      ((jsSort placeLe (results.filter (fun c => c.geometry.isSome))).head?).bind
        projectPlace := by
  cases results with
  | nil => rfl
  | cons a t =>
    unfold pickBestCandidate
    rw [if_pos (by simp)]
    cases hs : jsSort placeLe ((a :: t).filter fun c => c.geometry.isSome) with
    | nil => rfl
    | cons p r => rfl

/-! ### Claim theorems -/

set_option maxRecDepth 200000

/-- C1 counterexample: starting from an empty history document, six
successive appends with distinct prompts leave the stored `messages` array at
length 12, which exceeds the claimed bound of 10. -/
theorem chatHistoryOverflowCex :
    (c1Store 6).length = 12 ∧ 10 < (c1Store 6).length := by decide

/-- C1 (amended): the history slice read back for the completion is capped at
the 10 most recent stored turns, but the stored document itself is written
with an array-union append and is never trimmed: each append leaves it at
least as long as before (growing by at most 2 turns), so its length is not
bounded by 10. -/
theorem chatHistoryBounds (env : Env) (stored : List Turn) (msg : String) :
    (trimHistory stored).length ≤ 10
    ∧ stored.length ≤ (getAIResponse env stored msg).2.length
    ∧ (getAIResponse env stored msg).2.length ≤ stored.length + 2 := by
  refine ⟨trimHistory_length stored, ?_, ?_⟩
  · unfold getAIResponse
    exact length_le_arrayUnion _ stored
  · unfold getAIResponse
    dsimp only
    refine le_trans (arrayUnion_length_le _ stored stored (fun b hb => hb)) ?_
    have hnil : (trimHistory stored).filter (fun t => decide (t ∉ stored)) = [] :=
      List.filter_eq_nil_iff.mpr (fun a ha => by simp [trimHistory_mem stored a ha])
    rw [List.filter_append, List.filter_append, hnil]
    simp only [List.length_append, List.nil_append, List.length_nil]
    have h1 := List.length_filter_le (fun t => decide (t ∉ stored))
      [Turn.mk "user" (tonePrompt ++ "\n\nคำถามของผู้ใช้: " ++ msg)]
    have h2 := List.length_filter_le (fun t => decide (t ∉ stored))
      [Turn.mk "model"
        (if env.complete (trimHistory stored ++
            [Turn.mk "user" (tonePrompt ++ "\n\nคำถามของผู้ใช้: " ++ msg)]) == ""
         then "ขออภัย ฉันไม่สามารถให้ข้อมูลได้"
         else env.complete (trimHistory stored ++
            [Turn.mk "user" (tonePrompt ++ "\n\nคำถามของผู้ใช้: " ++ msg)]))]
    simp only [List.length_cons, List.length_nil] at h1 h2
    omega

/-- C5 counterexample: on the line `"x 1. y"` the extraction keeps the line
(the code's filter regex `\d+\.\s*.+` is unanchored), whereas the claimed
rule `^\d+\.\s+` would drop it and produce the empty list. -/
theorem numberedListExtractionCex :
    extractPlaces "x 1. y" = ["x 1. y"] ∧ extractPlacesClaimed "x 1. y" = [] := by
  decide

/-- C5 (amended): the extraction splits on newlines and keeps exactly the
lines that, after trimming, contain anywhere one or more digits followed by a
dot followed by at least one further character; kept lines are transformed by
stripping a leading `digits.` numeral (when the line starts with one),
stripping bold markup, taking the text before the first colon and trimming.
On the claim's example this yields exactly `["Doi Suthep", "Night Bazaar"]`. -/
theorem numberedListExtractionAmended :
    (∀ s, extractPlaces s = extractPlacesSpecA s)
    ∧ extractPlaces "1. Doi Suthep: temple\n2. **Night Bazaar**\nsome prose" =
        ["Doi Suthep", "Night Bazaar"] := by
  constructor
  · intro s
    unfold extractPlaces extractPlacesSpecA specKeepsLine
    congr 1
    apply List.filter_congr
    intro a _
    rw [hasNumbered_eq]
    rfl
  · decide

/-- C6: for every environment and any two stored histories, the dispatcher
answers a sticker event with exactly one text message (the translated
greeting) carrying the quick-reply menu, and the answer does not depend on
the stored history. -/
theorem stickerResponseSpec (env : Env) (stored stored2 : List Turn) :
    getAIResponseWithMedia env stored .sticker = getAIResponseWithMedia env stored2 .sticker
    ∧ (getAIResponseWithMedia env stored .sticker).1 =
        [ReplyMsg.text
          (if (translateText env (.str stickerGreetingText) (some "th")).text == ""
           then stickerGreetingText
           else (translateText env (.str stickerGreetingText) (some "th")).text)
          (some (createQuickReply "th"))] :=
  ⟨rfl, rfl⟩

/-- C7: when no target language is requested, or the requested target equals
the detected source language, `translateText` returns the input string
unchanged, tagged with the detected language. -/
theorem translateIdentitySpec (env : Env) (text : String) (targetLang : Option String)
    (h : targetLang = none ∨ targetLang = some (env.detect text)) :
    translateText env (.str text) targetLang = ⟨text, env.detect text⟩ := by
  rcases h with h | h
  · rw [h]; rfl
  · rw [h]
    unfold translateText
    simp

/-- C7 witness: both identity cases at concrete inputs. -/
theorem translateIdentitySpecW :
    translateText envDefault (.str "สวัสดี") none = ⟨"สวัสดี", "th"⟩
    ∧ translateText envDefault (.str "hello") (some "th") = ⟨"hello", "th"⟩ :=
  ⟨translateIdentitySpec envDefault "สวัสดี" none (Or.inl rfl),
   translateIdentitySpec envDefault "hello" (some "th") (Or.inr rfl)⟩

/-- C8 counterexample: the non-string value whose `toString()` is `"42"` is
returned as `"42"`, not as the fixed error string, so non-string input does
not always produce the fixed error string. -/
theorem translateNonStringCex :
    translateText envDefault (.nonString (some "42")) none = ⟨"42", "th"⟩
    ∧ "42" ≠ "ข้อความไม่ถูกต้อง" := by
  constructor
  · rfl
  · decide

/-- C8 (amended): non-string input never fails: the result is always tagged
with the default language `"th"`, and its text is the input's string
conversion when that conversion exists and is non-empty, else the fixed error
string `"ข้อความไม่ถูกต้อง"`. -/
theorem translateNonStringAmended (env : Env) (t : Option String) (target : Option String) :
    (translateText env (.nonString t) target).lang = "th"
    ∧ (∀ s, t = some s → s ≠ "" → (translateText env (.nonString t) target).text = s)
    ∧ ((t = none ∨ t = some "") →
        (translateText env (.nonString t) target).text = "ข้อความไม่ถูกต้อง") := by
  refine ⟨rfl, ?_, ?_⟩
  · intro s hs hne
    rw [hs]
    unfold translateText
    simp [hne]
  · rintro (ht | ht) <;> rw [ht] <;> rfl

/-- C8 witness: the amended behaviour at concrete inputs. -/
theorem translateNonStringAmendedW :
    (translateText envDefault (.nonString (some "42")) none).lang = "th"
    ∧ (translateText envDefault (.nonString (some "42")) none).text = "42"
    ∧ (translateText envDefault (.nonString none) none).text = "ข้อความไม่ถูกต้อง" :=
  ⟨(translateNonStringAmended envDefault (some "42") none).1,
   (translateNonStringAmended envDefault (some "42") none).2.1 "42" rfl (by decide),
   (translateNonStringAmended envDefault none none).2.2 (Or.inl rfl)⟩

/-- Projection preserves the rating sort key. -/
theorem hotelRecordGe_project (a b : NearbyCandidate)
    (h : keyGe (nearbyKey a) (nearbyKey b)) :
    hotelRecordGe (projectHotel a) (projectHotel b) := by
  unfold hotelRecordGe
  dsimp only [projectHotel]
  rw [jsRatingField_getD, jsRatingField_getD]
  unfold nearbyKey at h
  exact h

/-- C3: the Place Resolver's candidate processing (i) only returns records
whose coordinates come from a geometry-bearing entry of the result list,
(ii) returns not-found when no entry has geometry, (iii) equals the
projection of the head of the stable sort of the geometry-filtered entries,
and (iv) that sorted list is ordered by rating descending then rating-count
descending with missing values treated as 0. -/
theorem placeResolverSpec (results : List PlaceCandidate) :
    (∀ r, pickBestCandidate results = some r →
        ∃ c, c ∈ results ∧ c.geometry = some (r.latitude, r.longitude))
    ∧ ((∀ c, c ∈ results → c.geometry = none) → pickBestCandidate results = none)
    ∧ pickBestCandidate results =
        ((jsSort placeLe (results.filter (fun c => c.geometry.isSome))).head?).bind
          projectPlace
    ∧ (jsSort placeLe (results.filter (fun c => c.geometry.isSome))).Pairwise
        (fun a b => keyGe (ratingKey a) (ratingKey b)) := by
  refine ⟨?_, ?_, pickBestCandidate_eq results, ?_⟩
  · intro r h
    rw [pickBestCandidate_eq] at h
    cases hh : (jsSort placeLe (results.filter fun c => c.geometry.isSome)).head? with
    | none => rw [hh] at h; cases h
    | some c =>
      rw [hh] at h
      rw [Option.some_bind] at h
      unfold projectPlace at h
      have hc : c ∈ results.filter (fun c => c.geometry.isSome) :=
        (mem_jsSort _ _ _).mp (mem_of_head?_eq hh)
      have hcr : c ∈ results := (List.mem_filter.mp hc).1
      cases hg : c.geometry with
      | none => rw [hg] at h; cases h
      | some p =>
        rw [hg] at h
        simp only [Option.map_some', Option.some.injEq] at h
        refine ⟨c, hcr, ?_⟩
        rw [hg, ← h]
  · intro hall
    rw [pickBestCandidate_eq]
    have hf : results.filter (fun c => c.geometry.isSome) = [] :=
      List.filter_eq_nil_iff.mpr (fun c hc => by simp [hall c hc])
    rw [hf]
    rfl
  · exact (pairwise_jsSort placeLe placeLe_total placeLe_trans _).imp
      (fun h => (placeLe_iff _ _).mp h)

/-- C3 witness: on `c3ResultA` the resolver's record takes its coordinates
from the geometry-bearing entry; on the geometry-free `c3ResultB` it returns
not-found. -/
theorem placeResolverSpecW :
    (∃ c, c ∈ c3ResultA ∧ c.geometry = some ((10 : Rat), (20 : Rat)))
    ∧ pickBestCandidate c3ResultB = none :=
  ⟨(placeResolverSpec c3ResultA).1
      ⟨"p2", "Wat B", 10, 20, "addr", some "ph", some 4, 7⟩ (by decide),
   (placeResolverSpec c3ResultB).2.1 (by decide)⟩

/-- The nearby-search stage: pipeline shape, bound of 3, presence of the
nearby call and the rating ordering. -/
theorem nearbyHotels_props (env : Env) (loc : Rat × Rat) (t : List Call) :
    (nearbyHotels env loc t).1 =
      ((jsSort nearbyLe ((env.nearby loc.1 loc.2 20000 "lodging").filter
          (fun h => h.geometry.isSome))).take 3).map projectHotel
    ∧ (nearbyHotels env loc t).1.length ≤ 3
    ∧ Call.nearby loc.1 loc.2 20000 "lodging" ∈ (nearbyHotels env loc t).2
    ∧ (nearbyHotels env loc t).1.Pairwise hotelRecordGe := by
  refine ⟨rfl, ?_, ?_, ?_⟩
  · show (((jsSort nearbyLe ((env.nearby loc.1 loc.2 20000 "lodging").filter
        (fun h => h.geometry.isSome))).take 3).map projectHotel).length ≤ 3
    rw [List.length_map, List.length_take]
    exact min_le_left _ _
  · show Call.nearby loc.1 loc.2 20000 "lodging" ∈ t ++ [Call.nearby loc.1 loc.2 20000 "lodging"]
    exact List.mem_append.mpr (Or.inr (List.mem_singleton.mpr rfl))
  · have hp2 : (jsSort nearbyLe ((env.nearby loc.1 loc.2 20000 "lodging").filter
        (fun h => h.geometry.isSome))).Pairwise
        (fun a b => keyGe (nearbyKey a) (nearbyKey b)) :=
      (pairwise_jsSort nearbyLe nearbyLe_total nearbyLe_trans _).imp
        (fun h => (nearbyLe_iff _ _).mp h)
    have hp3 := List.Pairwise.sublist (List.take_sublist 3 _) hp2
    exact List.pairwise_map.mpr (hp3.imp (fun h => hotelRecordGe_project _ _ h))

/-- C4: the Hotel Finder always returns the filter-sort-take-3 projection of
a nearby lodging search (radius 20000 m) run at the anchor chosen by the
fallback chain, hence at most 3 records sorted by rating descending then
rating-count descending; and when all three resolutions fail the anchor is
the hard-coded coordinate pair, at which the nearby search is still
performed. -/
theorem hotelFinderSpec (env : Env) (placeName : String) :
    (getHotelsNearPlace env placeName).1 =
        ((jsSort nearbyLe ((env.nearby (hotelAnchor env placeName).1
            (hotelAnchor env placeName).2 20000 "lodging").filter
            (fun h => h.geometry.isSome))).take 3).map projectHotel
    ∧ (getHotelsNearPlace env placeName).1.length ≤ 3
    ∧ Call.nearby (hotelAnchor env placeName).1 (hotelAnchor env placeName).2 20000 "lodging"
        ∈ (getHotelsNearPlace env placeName).2
    ∧ (getHotelsNearPlace env placeName).1.Pairwise hotelRecordGe
    ∧ ((getLocationFromGooglePlaces env placeName).1 = none →
       (getLocationFromGooglePlaces env "Chiang Mai, Thailand").1 = none →
       (getLocationFromGooglePlaces env "Bangkok, Thailand").1 = none →
       hotelAnchor env placeName = (18.7883, 98.9857)) := by
  unfold getHotelsNearPlace hotelAnchor
  cases h1 : (getLocationFromGooglePlaces env placeName).1 with
  | some loc =>
    obtain ⟨e1, e2, e3, e4⟩ :=
      nearbyHotels_props env (loc.latitude, loc.longitude)
        (getLocationFromGooglePlaces env placeName).2
    exact ⟨e1, e2, e3, e4, fun hc _ _ => Option.noConfusion hc⟩
  | none =>
    cases h2 : (getLocationFromGooglePlaces env "Chiang Mai, Thailand").1 with
    | some loc =>
      obtain ⟨e1, e2, e3, e4⟩ :=
        nearbyHotels_props env (loc.latitude, loc.longitude)
          ((getLocationFromGooglePlaces env placeName).2 ++
            (getLocationFromGooglePlaces env "Chiang Mai, Thailand").2)
      exact ⟨e1, e2, e3, e4, fun _ hc _ => Option.noConfusion hc⟩
    | none =>
      cases h3 : (getLocationFromGooglePlaces env "Bangkok, Thailand").1 with
      | some loc =>
        obtain ⟨e1, e2, e3, e4⟩ :=
          nearbyHotels_props env (loc.latitude, loc.longitude)
            ((getLocationFromGooglePlaces env placeName).2 ++
              (getLocationFromGooglePlaces env "Chiang Mai, Thailand").2 ++
              (getLocationFromGooglePlaces env "Bangkok, Thailand").2)
        exact ⟨e1, e2, e3, e4, fun _ _ hc => Option.noConfusion hc⟩
      | none =>
        obtain ⟨e1, e2, e3, e4⟩ :=
          nearbyHotels_props env (18.7883, 98.9857)
            ((getLocationFromGooglePlaces env placeName).2 ++
              (getLocationFromGooglePlaces env "Chiang Mai, Thailand").2 ++
              (getLocationFromGooglePlaces env "Bangkok, Thailand").2)
        exact ⟨e1, e2, e3, e4, fun _ _ _ => rfl⟩

/-- C4 witness: with an environment where every resolution fails, the anchor
is the hard-coded pair, the nearby call at those coordinates is performed and
at most 3 records are returned. -/
theorem hotelFinderSpecW :
    (getHotelsNearPlace envDefault "วัด").1.length ≤ 3
    ∧ Call.nearby 18.7883 98.9857 20000 "lodging" ∈ (getHotelsNearPlace envDefault "วัด").2
    ∧ hotelAnchor envDefault "วัด" = (18.7883, 98.9857) :=
  ⟨(hotelFinderSpec envDefault "วัด").2.1,
   (hotelFinderSpec envDefault "วัด").2.2.1,
   (hotelFinderSpec envDefault "วัด").2.2.2.2 rfl rfl rfl⟩

/-- The sticker branch ends with the quick-reply menu. -/
theorem stickerBranch_menu (env : Env) : endsWithMenu (stickerBranch env).1 :=
  ⟨_, _, rfl⟩

/-- The recommend-places branch ends with the quick-reply menu. -/
theorem recommendPlacesBranch_menu (env : Env) (stored : List Turn) (lang : String)
    (prefs : List String) (s : String) :
    endsWithMenu (recommendPlacesBranch env stored lang prefs s).1 := by
  unfold recommendPlacesBranch
  dsimp only
  split
  · exact endsWithMenu_single _ _
  · exact endsWithMenu_append _ _ (endsWithMenu_single _ _)

/-- The info branch ends with the quick-reply menu. -/
theorem infoBranch_menu (env : Env) (lang : String) (s : String) :
    endsWithMenu (infoBranch env lang s).1 := by
  unfold infoBranch
  dsimp only
  split
  · exact endsWithMenu_append _ _ (endsWithMenu_single _ _)
  · exact endsWithMenu_single _ _

/-- The hotels branch ends with the quick-reply menu. -/
theorem hotelsBranch_menu (env : Env) (lang : String) (s : String) :
    endsWithMenu (hotelsBranch env lang s).1 := by
  unfold hotelsBranch
  dsimp only
  split
  · exact endsWithMenu_single _ _
  · exact endsWithMenu_append _ _ (endsWithMenu_single _ _)

/-- The weather branch ends with the quick-reply menu. -/
theorem weatherBranch_menu (env : Env) (lang : String) (s : String) :
    endsWithMenu (weatherBranch env lang s).1 := by
  unfold weatherBranch
  dsimp only
  split
  · exact endsWithMenu_two _ _ _
  · exact endsWithMenu_single _ _

/-- The map branch ends with the quick-reply menu. -/
theorem mapBranch_menu (env : Env) (lang : String) (s : String) :
    endsWithMenu (mapBranch env lang s).1 := by
  unfold mapBranch
  dsimp only
  split
  · split
    · exact endsWithMenu_two _ _ _
    · exact endsWithMenu_single _ _
  · exact endsWithMenu_single _ _

/-- The contact branch ends with the quick-reply menu. -/
theorem contactBranch_menu (env : Env) (lang : String) :
    endsWithMenu (contactBranch env lang).1 :=
  endsWithMenu_three _ _ _ _

/-- The fallback branch ends with the quick-reply menu. -/
theorem fallbackBranch_menu (env : Env) (stored : List Turn) (lang : String) (s : String) :
    endsWithMenu (fallbackBranch env stored lang s).1 := by
  unfold fallbackBranch
  dsimp only
  split
  · exact endsWithMenu_append _ _ (endsWithMenu_single _ _)
  · split
    · exact endsWithMenu_two _ _ _
    · exact endsWithMenu_single _ _

/-- Every dispatcher output ends with a text message carrying the quick-reply
menu. -/
theorem getAIResponseWithMedia_menu (env : Env) (stored : List Turn) (msg : UserMsg) :
    endsWithMenu (getAIResponseWithMedia env stored msg).1 := by
  cases msg with
  | sticker => exact stickerBranch_menu env
  | text s =>
    unfold getAIResponseWithMedia
    dsimp only
    split
    · exact recommendPlacesBranch_menu env stored _ _ s
    · split
      · exact infoBranch_menu env _ s
      · split
        · exact hotelsBranch_menu env _ s
        · split
          · exact weatherBranch_menu env _ s
          · split
            · exact mapBranch_menu env _ s
            · split
              · exact contactBranch_menu env _
              · exact fallbackBranch_menu env stored _ s

/-- C9: on the success path every dispatcher output is a non-empty reply
sequence whose final message is a text message carrying the quick-reply menu,
and that menu always holds exactly 3 actions, in every intent branch
including the fallback branches. -/
theorem dispatcherReplyInvariant (env : Env) (stored : List Turn) (msg : UserMsg) :
    (getAIResponseWithMedia env stored msg).1 ≠ []
    ∧ endsWithMenu (getAIResponseWithMedia env stored msg).1
    ∧ ∀ lang, (createQuickReply lang).items.length = 3 :=
  ⟨endsWithMenu_ne_nil (getAIResponseWithMedia_menu env stored msg),
   getAIResponseWithMedia_menu env stored msg,
   fun lang => createQuickReply_three lang⟩

/-- The recommend-places branch degenerates to the single guidance message
with no data call when the destination is out of region. -/
theorem recommendPlacesBranch_guidance (env : Env) (stored : List Turn) (lang : String)
    (prefs : List String) (s : String)
    (h : isNorthernDest (placesDestination s) = false) :
    recommendPlacesBranch env stored lang prefs s =
      ([qrText (translateText env (.str guidanceText) (some lang)).text lang], []) := by
  unfold recommendPlacesBranch
  simp only [h, Bool.not_false, if_true]

/-- The hotels branch degenerates to the single guidance message with no data
call when the destination is out of region. -/
theorem hotelsBranch_guidance (env : Env) (lang : String) (s : String)
    (h : isNorthernDest (hotelsDestination s) = false) :
    hotelsBranch env lang s =
      ([qrText (translateText env (.str guidanceText) (some lang)).text lang], []) := by
  unfold hotelsBranch
  simp only [h, Bool.not_false, if_true]

/-- C2: whenever the recommend-places branch runs on a destination that does
not (case-insensitively) contain one of the 9 northern provinces or the
region name, and whenever the recommend-hotels branch does, the dispatcher
returns exactly one guidance text message carrying the quick-reply menu and
records no completion, place-lookup, web-search or hotel-search call. -/
theorem regionGateGuidance (env : Env) (stored : List Turn) (s : String) :
    (placesGuard s = true →
      isNorthernDest (placesDestination s) = false →
      (getAIResponseWithMedia env stored (.text s)).1 =
          [qrText (translateText env (.str guidanceText)
              (some (translateText env (.str s) none).lang)).text
            (translateText env (.str s) none).lang]
        ∧ (getAIResponseWithMedia env stored (.text s)).2 = [])
    ∧ (placesGuard s = false → infoGuard s = false → hotelsGuard s = true →
      isNorthernDest (hotelsDestination s) = false →
      (getAIResponseWithMedia env stored (.text s)).1 =
          [qrText (translateText env (.str guidanceText)
              (some (translateText env (.str s) none).lang)).text
            (translateText env (.str s) none).lang]
        ∧ (getAIResponseWithMedia env stored (.text s)).2 = []) := by
  constructor
  · intro h1 h2
    unfold getAIResponseWithMedia
    dsimp only
    rw [if_pos h1, recommendPlacesBranch_guidance env stored _ _ s h2]
    exact ⟨rfl, rfl⟩
  · intro h1 h2 h3 h4
    unfold getAIResponseWithMedia
    dsimp only
    rw [if_neg (by rw [h1]; exact Bool.false_ne_true),
      if_neg (by rw [h2]; exact Bool.false_ne_true),
      if_pos h3, hotelsBranch_guidance env _ s h4]
    exact ⟨rfl, rfl⟩

/-- C2 witness: the scenario message `"แนะนำที่เที่ยว กรุงเทพ"` (a non-northern
destination) yields exactly the guidance message and an empty data-call
trace. -/
theorem regionGateGuidanceW :
    placesGuard "แนะนำที่เที่ยว กรุงเทพ" = true
    ∧ isNorthernDest (placesDestination "แนะนำที่เที่ยว กรุงเทพ") = false
    ∧ (getAIResponseWithMedia envDefault [] (.text "แนะนำที่เที่ยว กรุงเทพ")).1 =
        [qrText (translateText envDefault (.str guidanceText) (some "th")).text "th"]
    ∧ (getAIResponseWithMedia envDefault [] (.text "แนะนำที่เที่ยว กรุงเทพ")).2 = [] := by
  have h := (regionGateGuidance envDefault [] "แนะนำที่เที่ยว กรุงเทพ").1 rfl rfl
  exact ⟨rfl, rfl, h.1, h.2⟩

/-- Augmentation never empties a non-empty list. -/
theorem augmentFirstMessage_ne_nil (env : Env) (f : Bool) (u : String)
    (msgs : List ReplyMsg) (h : msgs ≠ []) :
    augmentFirstMessage env f u msgs ≠ [] := by
  unfold augmentFirstMessage
  split
  · split
    · simp
    · exact h
  · exact h

/-- C10: for a first-time user the webhook handler appends one welcome text
message carrying the quick-reply menu (localized to the detected language)
exactly when the dispatcher's non-empty reply list does not already end with
a quick reply; otherwise, and for returning users, the list is left
unchanged; and the handler sends the augmented dispatcher output. -/
theorem firstMessageWelcomeSpec (env : Env) (u : String) (msgs : List ReplyMsg) :
    (msgs ≠ [] → lastLacksQuickReply msgs = true →
      augmentFirstMessage env true u msgs =
        msgs ++ [qrText (translateText env (.str welcomeText)
            (some (translateText env (.str u) none).lang)).text
          (translateText env (.str u) none).lang])
    ∧ (lastLacksQuickReply msgs = false → augmentFirstMessage env true u msgs = msgs)
    ∧ augmentFirstMessage env false u msgs = msgs
    ∧ handleTextEvent env none u =
        some (augmentFirstMessage env true u
          (getAIResponseWithMedia env [] (.text u)).1) := by
  refine ⟨?_, ?_, rfl, ?_⟩
  · intro hne hlast
    unfold augmentFirstMessage
    rw [if_pos (by simp [List.length_pos.mpr hne]), if_pos hlast]
  · intro hlast
    unfold augmentFirstMessage
    split
    · rw [if_neg (by simp [hlast])]
    · rfl
  · unfold handleTextEvent
    dsimp only
    simp only [Option.isNone_none, Option.getD_none]
    rw [if_pos (List.length_pos.mpr
      (augmentFirstMessage_ne_nil env true u _
        (endsWithMenu_ne_nil (getAIResponseWithMedia_menu env [] (.text u)))))]

/-- C10 witness: a reply list ending without a quick reply gets the welcome
message appended. -/
theorem firstMessageWelcomeSpecW :
    augmentFirstMessage envDefault true "สวัสดี" [ReplyMsg.image "a" "b"] =
      [ReplyMsg.image "a" "b",
       qrText (translateText envDefault (.str welcomeText) (some "th")).text "th"] :=
  (firstMessageWelcomeSpec envDefault "สวัสดี" [ReplyMsg.image "a" "b"]).1
    (List.cons_ne_nil _ _) rfl
